import Mathlib

/-!
Shallow embedding of the chat-completion adapter `src/chat.rs` of
`ai00_server`, together with theorems checking the natural-language
specification against the code.

Conventions of the embedding:
* Rust `String` is Lean `String`; Rust `usize` counters are `Nat`
  (the counters and token budgets involved are small, so overflow
  wrapping never matters for the stated properties).
* `f32` sampling parameters (`temperature`, `top_p`, the penalties) are
  never computed with in `chat.rs` — they are passed through unchanged —
  so the structures are parameterised over an arbitrary type `F` that
  stands for `f32`.
* Rust `str::trim` (Unicode white space) is modelled by Lean's
  `String.trim` (ASCII white space); no stated property depends on the
  exact white-space set.
* The per-request flume channel is modelled by the finite list of
  `Token` events the handler receives from it before it closes;
  a channel that closes immediately is the empty list.
* Types declared at the crate root (`Token`, `FinishReason`,
  `TokenCounter`, `OptionArray`, `GenerateRequest`, `ThreadRequest`,
  `RequestKind`, `MAX_TOKENS`) are not under `src/`; they are modelled
  from the spec, as marked on each declaration.
-/

namespace Ai00

/-- Role of a chat message, from `src/chat.rs` (`enum Role`). -/
inductive Role : Type
  | System
  | User
  | Assistant
  deriving DecidableEq, Repr

/-- The `Display` impl of `Role` in `src/chat.rs`: fixed capitalised form. -/
def Role.display : Role → String
  | .System => "System"
  | .User => "User"
  | .Assistant => "Assistant"

/-- One chat message, from `src/chat.rs` (`struct ChatRecord`). -/
structure ChatRecord : Type where
  role : Role
  content : String
  deriving DecidableEq, Repr

/-- Modelled from the spec: `OptionArray` is declared at the crate root,
outside `src/`; the spec describes it as a one-or-many field, an explicit
variant of a single value or an ordered sequence with a canonicalizing
accessor, defaulting to the empty sequence. -/
inductive OptionArray (α : Type) : Type
  | none
  | item (value : α)
  | array (values : List α)
  deriving DecidableEq, Repr

/-- Modelled from the spec: the canonicalizing accessor of `OptionArray`
(`Vec::from` in the source), yielding the ordered sequence. -/
def OptionArray.toList {α : Type} : OptionArray α → List α
  | .none => []
  | .item value => [value]
  | .array values => values

/-- Sampler configuration, carried through unchanged by `chat.rs`.
`F` stands for `f32`. -/
structure Sampler (F : Type) : Type where
  top_p : F
  temperature : F
  presence_penalty : F
  frequency_penalty : F
  deriving DecidableEq, Repr

/-- Incoming chat request, from `src/chat.rs` (`struct ChatRequest`). -/
structure ChatRequest (F : Type) : Type where
  messages : OptionArray ChatRecord
  max_tokens : Nat
  stop : OptionArray String
  temperature : F
  top_p : F
  presence_penalty : F
  frequency_penalty : F
  deriving DecidableEq, Repr

/-- Modelled from the spec: the global ceiling `crate::MAX_TOKENS` is
declared outside `src/`; the spec's examples use the ceiling 4096. -/
def MAX_TOKENS : Nat := 4096

/-- Modelled from the spec: `GenerateRequest` is declared at the crate
root, outside `src/`: prompt text, clamped `max_tokens`, stop sequences,
sampler configuration, and per-token occurrence counts (empty at
creation, modelled as an association list). -/
structure GenerateRequest (F : Type) : Type where
  prompt : String
  max_tokens : Nat
  stop : List String
  sampler : Sampler F
  occurrences : List (String × Nat)
  deriving DecidableEq, Repr

/-- The request normalizer: `impl From<ChatRequest> for GenerateRequest`
in `src/chat.rs`. Renders each message as `"<DisplayRole>: <trimmed
content>"`, joins with `"\n\n"`, appends the assistant cue, clamps
`max_tokens` to `crate::MAX_TOKENS`, canonicalizes `stop`, and copies the
four sampling parameters. -/
def GenerateRequest.fromChat {F : Type} (value : ChatRequest F) : GenerateRequest F :=
  let prompt := String.intercalate "\n\n"
    (value.messages.toList.map fun r => r.role.display ++ ": " ++ r.content.trim)
  let assistant := Role.Assistant.display
  let prompt := prompt ++ ("\n\n" ++ assistant ++ ":")
  { prompt := prompt
    max_tokens := min value.max_tokens MAX_TOKENS
    stop := value.stop.toList
    sampler :=
      { top_p := value.top_p
        temperature := value.temperature
        presence_penalty := value.presence_penalty
        frequency_penalty := value.frequency_penalty }
    occurrences := [] }

/-- Modelled from the spec: the engine→adapter `Token` event union,
declared at the crate root, outside `src/`:
`PromptTokenCount(int) | Token(text) | Stop | CutOff | EndOfText`. -/
inductive Token : Type
  | promptTokenCount (n : Nat)
  | token (text : String)
  | stop
  | cutOff
  | endOfText
  deriving DecidableEq, Repr

/-- Modelled from the spec: `FinishReason` is declared at the crate root,
outside `src/`: `{Null, Stop, Length}`. -/
inductive FinishReason : Type
  | null
  | stop
  | length
  deriving DecidableEq, Repr

/-- Modelled from the spec: `TokenCounter` is declared at the crate root,
outside `src/`: `{prompt_tokens, completion_tokens, total_tokens}`,
all-zero by default. -/
structure TokenCounter : Type where
  prompt_tokens : Nat
  completion_tokens : Nat
  total_tokens : Nat
  deriving DecidableEq, Repr

/-- The all-zero `TokenCounter::default()`. -/
def TokenCounter.zero : TokenCounter :=
  { prompt_tokens := 0, completion_tokens := 0, total_tokens := 0 }

/-- One aggregated choice, from `src/chat.rs` (`struct ChatChoice`). -/
structure ChatChoice : Type where
  message : ChatRecord
  index : Nat
  finish_reason : FinishReason
  deriving DecidableEq, Repr

/-- Aggregated response, from `src/chat.rs` (`struct ChatResponse`). -/
structure ChatResponse : Type where
  object : String
  choices : List ChatChoice
  counter : TokenCounter
  deriving DecidableEq, Repr

/-- The mutable state of the `while let` loop of `chat_completions` in
`src/chat.rs`: `counter`, `finish_reason`, `text`. -/
structure AggState : Type where
  counter : TokenCounter
  finish_reason : FinishReason
  text : String
  deriving DecidableEq, Repr

/-- The `while let Some(token) = stream.next().await` loop of
`chat_completions` in `src/chat.rs`, consuming the token channel until a
terminating event (`break`) or channel closure (end of the list). -/
def aggLoop : List Token → AggState → AggState
  | [], s => s
  | t :: rest, s =>
    match t with
    | .promptTokenCount prompt_tokens =>
        aggLoop rest { s with counter := { s.counter with prompt_tokens := prompt_tokens } }
    | .token token =>
        aggLoop rest
          { s with
            text := s.text ++ token
            counter := { s.counter with
              completion_tokens := s.counter.completion_tokens + 1 } }
    | .stop => { s with finish_reason := .stop }
    | .cutOff => { s with finish_reason := .length }
    | .endOfText => { s with finish_reason := .length }

/-- The aggregating responder `chat_completions` in `src/chat.rs`, as a
function of the finite sequence of `Token` events received on the
per-request channel. After the loop, `total_tokens` is set to
`prompt_tokens + completion_tokens` and a single-choice response is
emitted. -/
def chat_completions (tokens : List Token) : ChatResponse :=
  let s := aggLoop tokens
    { counter := TokenCounter.zero, finish_reason := .null, text := "" }
  let counter := { s.counter with
    total_tokens := s.counter.prompt_tokens + s.counter.completion_tokens }
  { object := "chat.completion"
    choices := [{ message := { role := .Assistant, content := s.text }
                  index := 0
                  finish_reason := s.finish_reason }]
    counter := counter }

/-- One streamed delta, from `src/chat.rs` (`enum ChunkChatRecord`). -/
inductive ChunkChatRecord : Type
  | none
  | role (role : Role)
  | content (content : String)
  deriving DecidableEq, Repr

/-- One streamed choice, from `src/chat.rs` (`struct ChunkChatChoice`);
its `Default` is empty delta, index 0, finish reason `Null`. -/
structure ChunkChatChoice : Type where
  delta : ChunkChatRecord
  index : Nat
  finish_reason : FinishReason
  deriving DecidableEq, Repr

/-- `ChunkChatChoice::default()`. -/
def ChunkChatChoice.defaultChoice : ChunkChatChoice :=
  { delta := .none, index := 0, finish_reason := .null }

/-- One streamed chunk body, from `src/chat.rs`
(`struct ChunkChatResponse`). -/
structure ChunkChatResponse : Type where
  object : String
  choices : List ChunkChatChoice
  deriving DecidableEq, Repr

/-- One outbound server-sent event of the streaming responder: either the
literal `[DONE]` data payload (`Event::default().data("[DONE]")`) or a
JSON-encoded chunk body (`Event::default().json_data(...)`). JSON
serialization itself is outside the embedding; `chunk` carries the value
being encoded. -/
inductive ChunkEvent : Type
  | done
  | chunk (response : ChunkChatResponse)
  deriving DecidableEq, Repr

/-- The per-event `match` inside the closure mapped over the token
channel by `chunk_chat_completions` in `src/chat.rs`, together with the
wrapping of the produced choice into a `ChunkChatResponse`. -/
def tokenToChunk : Token → ChunkEvent
  | .promptTokenCount _ =>
      .chunk { object := "chat.completion.chunk"
               choices := [{ delta := .role .Assistant
                             index := 0
                             finish_reason := .null }] }
  | .token token =>
      .chunk { object := "chat.completion.chunk"
               choices := [{ delta := .content token
                             index := 0
                             finish_reason := .null }] }
  | .cutOff =>
      .chunk { object := "chat.completion.chunk"
               choices := [{ ChunkChatChoice.defaultChoice with
                             finish_reason := .length }] }
  | .stop =>
      .chunk { object := "chat.completion.chunk"
               choices := [{ ChunkChatChoice.defaultChoice with
                             finish_reason := .stop }] }
  | .endOfText => .done

/-- The streaming responder `chunk_chat_completions` in `src/chat.rs`,
as a function of the finite sequence of `Token` events received on the
per-request channel: `token_receiver.into_stream().map(...)`. -/
def chunk_chat_completions (tokens : List Token) : List ChunkEvent :=
  tokens.map tokenToChunk

/-- Modelled from the spec: `RequestKind` is declared at the crate root,
outside `src/`; the envelope tags the generation request as a "Chat"
request kind. Only the `Chat` variant is used by `src/chat.rs`. -/
inductive RequestKind (F : Type) : Type
  | chat (request : ChatRequest F)
  deriving DecidableEq, Repr

/-- Modelled from the spec: `ThreadRequest` is declared at the crate
root, outside `src/`: the envelope `{request kind, sending half of the
per-request token channel}` submitted to the engine. The channel handle
itself is outside the embedding. -/
structure ThreadRequest (F : Type) : Type where
  request : RequestKind F
  deriving DecidableEq, Repr

/-- Outcome of `flume::Sender::send` on the engine's shared incoming
channel: `Ok(())` or `Err(SendError)` when the channel is disconnected. -/
inductive SendResult : Type
  | ok
  | disconnected
  deriving DecidableEq, Repr

/-- The `chat_completions` handler of `src/chat.rs` with its dispatch
step made explicit: it returns the list of envelopes it submits to the
engine's incoming channel, and the response computed from the tokens
later received on its private channel. The source discards the send
result (`let _ = sender.send(...)`), so `sendResult` is unused; a failed
submission manifests only as the private channel delivering no tokens. -/
def chat_completions_handler {F : Type} (request : ChatRequest F)
    (_sendResult : SendResult) (received : List Token) :
    List (ThreadRequest F) × ChatResponse :=
  ([{ request := RequestKind.chat request }], chat_completions received)

/-- The `chunk_chat_completions` handler of `src/chat.rs` with its
dispatch step made explicit, analogously to `chat_completions_handler`. -/
def chunk_chat_completions_handler {F : Type} (request : ChatRequest F)
    (_sendResult : SendResult) (received : List Token) :
    List (ThreadRequest F) × List ChunkEvent :=
  ([{ request := RequestKind.chat request }], chunk_chat_completions received)

/-- Whether a token event makes the aggregating loop `break`
(`Stop`, `CutOff` or `EndOfText`). -/
def Token.isTerminator : Token → Bool
  | .stop => true
  | .cutOff => true
  | .endOfText => true
  | .promptTokenCount _ => false
  | .token _ => false

/-- The concatenation of the payloads of the `Token(text)` events of a
stream, in order (spec-side helper for stating what the aggregator
accumulates). -/
def concatTokenTexts : List Token → String
  | [] => ""
  | .token text :: rest => text ++ concatTokenTexts rest
  | .promptTokenCount _ :: rest => concatTokenTexts rest
  | .stop :: rest => concatTokenTexts rest
  | .cutOff :: rest => concatTokenTexts rest
  | .endOfText :: rest => concatTokenTexts rest

/-- The number of `Token(text)` events of a stream (spec-side helper). -/
def countTokenTexts : List Token → Nat
  | [] => 0
  | .token _ :: rest => countTokenTexts rest + 1
  | .promptTokenCount _ :: rest => countTokenTexts rest
  | .stop :: rest => countTokenTexts rest
  | .cutOff :: rest => countTokenTexts rest
  | .endOfText :: rest => countTokenTexts rest

/-- The payload of the last `PromptTokenCount` event of a stream, or the
default `d` when there is none (spec-side helper). -/
def lastPromptCount : List Token → Nat → Nat
  | [], d => d
  | .promptTokenCount n :: rest, _ => lastPromptCount rest n
  | .token _ :: rest, d => lastPromptCount rest d
  | .stop :: rest, d => lastPromptCount rest d
  | .cutOff :: rest, d => lastPromptCount rest d
  | .endOfText :: rest, d => lastPromptCount rest d

/-- Claim C1: for every ChatRequest with N ordered messages, the prompt
of the normalized GenerateRequest is exactly the N lines
`"<DisplayRole>: <trimmed content>"`, in the original message order,
joined by the separator `"\n\n"`, followed by the trailing generation cue
`"\n\nAssistant:"`; in particular for an empty message list the prompt is
`"\n\nAssistant:"`. -/
theorem C1_prompt_format {F : Type} (request : ChatRequest F) :
    (GenerateRequest.fromChat request).prompt =
      String.intercalate "\n\n"
        (request.messages.toList.map fun m =>
          m.role.display ++ ": " ++ m.content.trim) ++ "\n\nAssistant:" ∧
    (request.messages.toList = [] →
      (GenerateRequest.fromChat request).prompt = "\n\nAssistant:") := by
  constructor
  · rfl
  · intro h
    show String.intercalate "\n\n" (request.messages.toList.map _) ++ _ = _
    rw [h]
    rfl

/-- Witness for C1 at a concrete empty-message request. -/
theorem C1_prompt_format_witness :
    (GenerateRequest.fromChat
        ({ messages := .none, max_tokens := 256, stop := .item "\n\n",
           temperature := (), top_p := (), presence_penalty := (),
           frequency_penalty := () } : ChatRequest Unit)).prompt =
      String.intercalate "\n\n"
        ((OptionArray.none : OptionArray ChatRecord).toList.map fun m =>
          m.role.display ++ ": " ++ m.content.trim) ++ "\n\nAssistant:" ∧
    (GenerateRequest.fromChat
        ({ messages := .none, max_tokens := 256, stop := .item "\n\n",
           temperature := (), top_p := (), presence_penalty := (),
           frequency_penalty := () } : ChatRequest Unit)).prompt =
      "\n\nAssistant:" := by
  refine ⟨(C1_prompt_format _).1, (C1_prompt_format _).2 rfl⟩

/-- Claim C2: the max_tokens of the normalized GenerateRequest is
`min(requested, MAX_TOKENS)`; it never exceeds the ceiling, and a request
at or below the ceiling passes through unchanged. -/
theorem C2_max_tokens_clamp {F : Type} (request : ChatRequest F) :
    (GenerateRequest.fromChat request).max_tokens =
      min request.max_tokens MAX_TOKENS ∧
    (GenerateRequest.fromChat request).max_tokens ≤ MAX_TOKENS ∧
    (request.max_tokens ≤ MAX_TOKENS →
      (GenerateRequest.fromChat request).max_tokens = request.max_tokens) := by
  refine ⟨rfl, ?_, ?_⟩
  · show min request.max_tokens MAX_TOKENS ≤ MAX_TOKENS
    exact min_le_right _ _
  · intro h
    show min request.max_tokens MAX_TOKENS = request.max_tokens
    exact min_eq_left h

/-- Witness for C2 at a concrete request asking for 100 tokens against
the ceiling 4096 (the spec's second example). -/
theorem C2_max_tokens_clamp_witness :
    (GenerateRequest.fromChat
        ({ messages := .none, max_tokens := 100, stop := .none,
           temperature := (), top_p := (), presence_penalty := (),
           frequency_penalty := () } : ChatRequest Unit)).max_tokens =
      min 100 MAX_TOKENS ∧
    (GenerateRequest.fromChat
        ({ messages := .none, max_tokens := 100, stop := .none,
           temperature := (), top_p := (), presence_penalty := (),
           frequency_penalty := () } : ChatRequest Unit)).max_tokens ≤
      MAX_TOKENS ∧
    (GenerateRequest.fromChat
        ({ messages := .none, max_tokens := 100, stop := .none,
           temperature := (), top_p := (), presence_penalty := (),
           frequency_penalty := () } : ChatRequest Unit)).max_tokens = 100 := by
  have h := C2_max_tokens_clamp
    ({ messages := .none, max_tokens := 100, stop := .none,
       temperature := (), top_p := (), presence_penalty := (),
       frequency_penalty := () } : ChatRequest Unit)
  exact ⟨h.1, h.2.1, h.2.2 (by decide)⟩

/-- Claim C3: on the token stream
`[PromptTokenCount 10, Token "Hi", Token " there", Stop]` the aggregating
responder yields prompt_tokens 10, completion_tokens 2, total_tokens 12,
finish reason Stop and content `"Hi there"`; ending the stream in CutOff
or EndOfText instead yields finish reason Length with all other fields
unchanged. -/
theorem C3_aggregate_example :
    chat_completions
        [.promptTokenCount 10, .token "Hi", .token " there", .stop] =
      { object := "chat.completion"
        choices := [{ message := { role := .Assistant, content := "Hi there" }
                      index := 0
                      finish_reason := .stop }]
        counter := { prompt_tokens := 10, completion_tokens := 2,
                     total_tokens := 12 } } ∧
    chat_completions
        [.promptTokenCount 10, .token "Hi", .token " there", .cutOff] =
      { object := "chat.completion"
        choices := [{ message := { role := .Assistant, content := "Hi there" }
                      index := 0
                      finish_reason := .length }]
        counter := { prompt_tokens := 10, completion_tokens := 2,
                     total_tokens := 12 } } ∧
    chat_completions
        [.promptTokenCount 10, .token "Hi", .token " there", .endOfText] =
      { object := "chat.completion"
        choices := [{ message := { role := .Assistant, content := "Hi there" }
                      index := 0
                      finish_reason := .length }]
        counter := { prompt_tokens := 10, completion_tokens := 2,
                     total_tokens := 12 } } := by
  refine ⟨rfl, rfl, rfl⟩

/-- Counterexample to claim C4 as stated: on the token stream
`[PromptTokenCount 10, Token "Hi", Token " there", Stop]` the streaming
responder emits 4 outbound chunks, not 3 — the `Stop` event is itself
mapped to a chunk (empty delta, finish reason Stop), so the emitted
list is not the 3-chunk list the claim describes. -/
theorem C4_counterexample :
    (chunk_chat_completions
        [.promptTokenCount 10, .token "Hi", .token " there", .stop]).length
      = 4 ∧
    (chunk_chat_completions
        [.promptTokenCount 10, .token "Hi", .token " there", .stop]
      = [ .chunk { object := "chat.completion.chunk"
                   choices := [{ delta := .role .Assistant, index := 0,
                                 finish_reason := .null }] },
          .chunk { object := "chat.completion.chunk"
                   choices := [{ delta := .content "Hi", index := 0,
                                 finish_reason := .null }] },
          .chunk { object := "chat.completion.chunk"
                   choices := [{ delta := .content " there", index := 0,
                                 finish_reason := .null }] } ]) = False := by
  refine ⟨rfl, ?_⟩
  simp only [eq_iff_iff, iff_false]
  decide

/-- Claim C4 as amended: the token stream
`[PromptTokenCount 10, Token "Hi", Token " there", Stop]` yields exactly
4 chunks in order — a role-priming chunk (finish reason Null), content
chunks `"Hi"` and `" there"` (Null), and an empty-delta chunk with finish
reason Stop — and the `[DONE]` marker (the only output that is not a
chunk) is produced exactly for an EndOfText event. -/
theorem C4_amended_four_chunks :
    chunk_chat_completions
        [.promptTokenCount 10, .token "Hi", .token " there", .stop] =
      [ .chunk { object := "chat.completion.chunk"
                 choices := [{ delta := .role .Assistant, index := 0,
                               finish_reason := .null }] },
        .chunk { object := "chat.completion.chunk"
                 choices := [{ delta := .content "Hi", index := 0,
                               finish_reason := .null }] },
        .chunk { object := "chat.completion.chunk"
                 choices := [{ delta := .content " there", index := 0,
                               finish_reason := .null }] },
        .chunk { object := "chat.completion.chunk"
                 choices := [{ delta := .none, index := 0,
                               finish_reason := .stop }] } ] ∧
    ∀ t : Token, (tokenToChunk t = .done) = (t = .endOfText) := by
  refine ⟨rfl, ?_⟩
  intro t
  cases t <;> simp [tokenToChunk]

/-- Witness for C4's amended theorem at the concrete events Stop and
EndOfText. -/
theorem C4_amended_four_chunks_witness :
    (tokenToChunk Token.stop = ChunkEvent.done) = (Token.stop = Token.endOfText) ∧
    (tokenToChunk Token.endOfText = ChunkEvent.done)
      = (Token.endOfText = Token.endOfText) := by
  exact ⟨C4_amended_four_chunks.2 Token.stop, C4_amended_four_chunks.2 Token.endOfText⟩

/-- Counterexample to claim C5 as stated: the streaming responder is a
pointwise map, so it does not end the emitted stream at the `[DONE]`
marker — on the channel content `[EndOfText, Stop]` it emits the marker
followed by a further (Stop) chunk, where the claim requires nothing
after the marker. -/
theorem C5_counterexample :
    chunk_chat_completions [.endOfText, .stop] =
      [ ChunkEvent.done,
        .chunk { object := "chat.completion.chunk"
                 choices := [{ delta := .none, index := 0,
                               finish_reason := .stop }] } ] ∧
    (chunk_chat_completions [.endOfText, .stop] = [ChunkEvent.done]) = False := by
  refine ⟨rfl, ?_⟩
  simp only [eq_iff_iff, iff_false]
  decide

/-- Claim C5 as amended: an EndOfText event is mapped to the terminal
marker event whose payload is the literal `[DONE]`, and no chunk object
is produced for it; but the mapping itself does not terminate the
emitted stream — the stream ends only when the token channel closes, so
any events received after EndOfText are still mapped and emitted. -/
theorem C5_amended_done_marker :
    tokenToChunk Token.endOfText = ChunkEvent.done ∧
    ∀ ts us : List Token,
      chunk_chat_completions (ts ++ Token.endOfText :: us) =
        chunk_chat_completions ts ++ ChunkEvent.done :: chunk_chat_completions us := by
  refine ⟨rfl, ?_⟩
  intro ts us
  simp [chunk_chat_completions, tokenToChunk]

/-- Claim C6: for every finite token stream, the usage counter of the
aggregated response satisfies total_tokens = prompt_tokens +
completion_tokens; and this equality is established only after the
consuming loop ends — the loop itself never writes total_tokens. -/
theorem C6_total_tokens_invariant :
    (∀ tokens : List Token,
      (chat_completions tokens).counter.total_tokens =
        (chat_completions tokens).counter.prompt_tokens +
          (chat_completions tokens).counter.completion_tokens) ∧
    ∀ (tokens : List Token) (s : AggState),
      (aggLoop tokens s).counter.total_tokens = s.counter.total_tokens := by
  have loop : ∀ (tokens : List Token) (s : AggState),
      (aggLoop tokens s).counter.total_tokens = s.counter.total_tokens := by
    intro tokens
    induction tokens with
    | nil => intro s; rfl
    | cons t rest ih => intro s; cases t <;> simp [aggLoop, ih]
  exact ⟨fun _ => rfl, loop⟩

/-- Claim C7: every aggregated ChatResponse carries
object `"chat.completion"` and exactly one choice, at index 0; every
streamed ChunkChatResponse carries object `"chat.completion.chunk"` and
exactly one choice, at index 0. -/
theorem C7_single_choice_index_zero :
    (∀ tokens : List Token,
      (chat_completions tokens).object = "chat.completion" ∧
      (chat_completions tokens).choices.length = 1 ∧
      ∀ c ∈ (chat_completions tokens).choices, c.index = 0) ∧
    ∀ (t : Token) (r : ChunkChatResponse), tokenToChunk t = .chunk r →
      r.object = "chat.completion.chunk" ∧
      r.choices.length = 1 ∧
      ∀ c ∈ r.choices, c.index = 0 := by
  constructor
  · intro tokens
    refine ⟨rfl, rfl, ?_⟩
    intro c hc
    simp only [chat_completions, List.mem_singleton] at hc
    rw [hc]
  · intro t r h
    cases t with
    | endOfText =>
        simp only [tokenToChunk] at h
        exact nomatch h
    | promptTokenCount n =>
        simp only [tokenToChunk] at h
        injection h with h
        subst h
        refine ⟨rfl, rfl, ?_⟩
        intro c hc
        simp only [List.mem_singleton] at hc
        rw [hc]
    | token s =>
        simp only [tokenToChunk] at h
        injection h with h
        subst h
        refine ⟨rfl, rfl, ?_⟩
        intro c hc
        simp only [List.mem_singleton] at hc
        rw [hc]
    | stop =>
        simp only [tokenToChunk] at h
        injection h with h
        subst h
        refine ⟨rfl, rfl, ?_⟩
        intro c hc
        simp only [List.mem_singleton] at hc
        rw [hc]
        rfl
    | cutOff =>
        simp only [tokenToChunk] at h
        injection h with h
        subst h
        refine ⟨rfl, rfl, ?_⟩
        intro c hc
        simp only [List.mem_singleton] at hc
        rw [hc]
        rfl

/-- Witness for C7 at the concrete event `Token "x"`. -/
theorem C7_single_choice_index_zero_witness :
    ({ object := "chat.completion.chunk"
       choices := [{ delta := .content "x", index := 0,
                     finish_reason := .null }] } : ChunkChatResponse).object =
      "chat.completion.chunk" ∧
    ({ object := "chat.completion.chunk"
       choices := [{ delta := .content "x", index := 0,
                     finish_reason := .null }] } : ChunkChatResponse).choices.length = 1 ∧
    ∀ c ∈ ({ object := "chat.completion.chunk"
             choices := [{ delta := .content "x", index := 0,
                           finish_reason := .null }] } : ChunkChatResponse).choices,
      c.index = 0 := by
  exact C7_single_choice_index_zero.2 (Token.token "x") _ rfl

/-- Claim C8: engine submission is fire-and-forget — each handler
performs exactly one submission onto the engine's incoming channel, its
result is computed identically whatever the outcome of that submission
(the send result is discarded), and when submission failure leaves the
private token channel empty the handlers still return a well-formed
(empty) response or stream rather than an error (their codomains have no
error variant). -/
theorem C8_fire_and_forget {F : Type} (request : ChatRequest F)
    (received : List Token) :
    (∀ r : SendResult,
      (chat_completions_handler request r received).1 =
        [{ request := RequestKind.chat request }] ∧
      (chunk_chat_completions_handler request r received).1 =
        [{ request := RequestKind.chat request }]) ∧
    (∀ r r' : SendResult,
      chat_completions_handler request r received =
        chat_completions_handler request r' received ∧
      chunk_chat_completions_handler request r received =
        chunk_chat_completions_handler request r' received) ∧
    (chat_completions_handler request .disconnected []).2 =
      { object := "chat.completion"
        choices := [{ message := { role := .Assistant, content := "" }
                      index := 0
                      finish_reason := .null }]
        counter := { prompt_tokens := 0, completion_tokens := 0,
                     total_tokens := 0 } } ∧
    (chunk_chat_completions_handler request .disconnected []).2 = [] := by
  exact ⟨fun _ => ⟨rfl, rfl⟩, fun _ _ => ⟨rfl, rfl⟩, rfl, rfl⟩

/-- The aggregating loop on a stream with no terminating event: it runs
to the end of the list, leaves the finish reason untouched, appends all
token texts, counts them, and keeps the last prompt-token count. -/
theorem aggLoop_no_terminator :
    ∀ (tokens : List Token) (s : AggState),
      (∀ t ∈ tokens, t.isTerminator = false) →
      aggLoop tokens s =
        { counter :=
            { prompt_tokens := lastPromptCount tokens s.counter.prompt_tokens
              completion_tokens :=
                s.counter.completion_tokens + countTokenTexts tokens
              total_tokens := s.counter.total_tokens }
          finish_reason := s.finish_reason
          text := s.text ++ concatTokenTexts tokens } := by
  intro tokens
  induction tokens with
  | nil =>
      intro s _
      simp [aggLoop, lastPromptCount, countTokenTexts, concatTokenTexts]
  | cons t rest ih =>
      intro s h
      have hr : ∀ u ∈ rest, u.isTerminator = false :=
        fun u hu => h u (List.mem_cons_of_mem _ hu)
      cases t with
      | promptTokenCount n =>
          show aggLoop rest _ = _
          rw [ih _ hr]
          simp [lastPromptCount, countTokenTexts, concatTokenTexts]
      | token str =>
          show aggLoop rest _ = _
          rw [ih _ hr]
          simp [lastPromptCount, countTokenTexts, concatTokenTexts,
            String.append_assoc]
          omega
      | stop =>
          exact absurd (h _ (List.mem_cons_self _ _)) (by decide)
      | cutOff =>
          exact absurd (h _ (List.mem_cons_self _ _)) (by decide)
      | endOfText =>
          exact absurd (h _ (List.mem_cons_self _ _)) (by decide)

/-- Claim C9: when the token channel closes before any terminating event,
the aggregating responder still returns a well-formed ChatResponse with
finish reason Null, the text accumulated up to closure, and a usage
counter computed from the tokens seen. -/
theorem C9_close_before_terminator (tokens : List Token)
    (h : ∀ t ∈ tokens, t.isTerminator = false) :
    chat_completions tokens =
      { object := "chat.completion"
        choices := [{ message := { role := .Assistant,
                                   content := concatTokenTexts tokens }
                      index := 0
                      finish_reason := .null }]
        counter := { prompt_tokens := lastPromptCount tokens 0
                     completion_tokens := countTokenTexts tokens
                     total_tokens :=
                       lastPromptCount tokens 0 + countTokenTexts tokens } } := by
  simp only [chat_completions]
  rw [aggLoop_no_terminator tokens _ h]
  simp [TokenCounter.zero]

/-- Witness for C9 at the concrete terminator-free stream
`[PromptTokenCount 5, Token "a"]`. -/
theorem C9_close_before_terminator_witness :
    (∀ t ∈ [Token.promptTokenCount 5, Token.token "a"],
      t.isTerminator = false) ∧
    chat_completions [Token.promptTokenCount 5, Token.token "a"] =
      { object := "chat.completion"
        choices := [{ message :=
                        { role := .Assistant
                          content := concatTokenTexts
                            [Token.promptTokenCount 5, Token.token "a"] }
                      index := 0
                      finish_reason := .null }]
        counter :=
          { prompt_tokens :=
              lastPromptCount [Token.promptTokenCount 5, Token.token "a"] 0
            completion_tokens :=
              countTokenTexts [Token.promptTokenCount 5, Token.token "a"]
            total_tokens :=
              lastPromptCount [Token.promptTokenCount 5, Token.token "a"] 0 +
                countTokenTexts [Token.promptTokenCount 5, Token.token "a"] } } :=
  ⟨by decide, C9_close_before_terminator _ (by decide)⟩

/-- Claim C10: the streaming responder is a pointwise map over the token
channel — it splits over concatenation, emits exactly one outbound event
per received token (so the output has the channel's length), maps a
singleton to the event of its token, and forwards the events after any
token (in particular after a Stop, CutOff or EndOfText terminator), so
the emitted stream ends only when the channel closes. -/
theorem C10_pointwise_map :
    (∀ ts us : List Token,
      chunk_chat_completions (ts ++ us) =
        chunk_chat_completions ts ++ chunk_chat_completions us) ∧
    (∀ ts : List Token, (chunk_chat_completions ts).length = ts.length) ∧
    (∀ t : Token, chunk_chat_completions [t] = [tokenToChunk t]) ∧
    ∀ (ts us : List Token) (t : Token),
      chunk_chat_completions (ts ++ t :: us) =
        chunk_chat_completions ts ++
          tokenToChunk t :: chunk_chat_completions us := by
  refine ⟨fun ts us => ?_, fun ts => ?_, fun t => rfl, fun ts us t => ?_⟩
  · simp [chunk_chat_completions]
  · simp [chunk_chat_completions]
  · simp [chunk_chat_completions]

end Ai00
